import Mathlib

/-!
Verification development for the voice-mode provider discovery and failover
engine (`voice_mode/provider_discovery.py` and `voice_mode/simple_failover.py`).

The Python code is shallowly embedded:
* Python `dict` objects (the provider registry, keyword-argument mappings)
  become insertion-ordered association lists with Python's assignment
  semantics (`dictSet` updates an existing key in place, else appends).
* Network effects of a health probe are passed in as an explicit
  `HttpResult` value (connection error, timeout, or a response with a
  status code and a parsed JSON body).
* `async`/`await` sequencing in `discover_all` is modelled by threading an
  explicit event trace: each awaited probe coroutine appends its start and
  finish events before the next statement runs.
* Mutable keyword-argument dicts in the failover executors are modelled by
  a store (list of dicts) indexed by references, so aliasing between the
  caller's dict and the copies made inside the executor is explicit.
* Python's implicit exception chaining (an exception raised while another
  is being handled gets that exception as its `__context__`) is modelled
  by the `PyErr` type: a raised error message together with its context
  chain.
-/

set_option autoImplicit false

namespace VoiceMode

/-! ### Python string containment (`needle in haystack`) -/

/-- Boolean test that the first character list starts the second. -/
def listLeads : List Char → List Char → Bool
  | [], _ => true
  | _ :: _, [] => false
  | a :: as, b :: bs => a == b && listLeads as bs

/-- Boolean test that `needle` occurs contiguously inside the character list. -/
def listHasSub (needle : List Char) : List Char → Bool
  | [] => listLeads needle []
  | c :: rest => listLeads needle (c :: rest) || listHasSub needle rest

/-- Embedding of Python's substring operator `sub in hay` on strings. -/
def strContains (hay sub : String) : Bool :=
  listHasSub sub.data hay.data

/-- Python truthiness test `not x` for an optional string: `None` and the
empty string are falsy. -/
def falsy : Option String → Bool
  | none => true
  | some s => decide (s = "")

/-! ### Insertion-ordered dictionaries (Python `dict`) -/

/-- Python `d[k] = v`: replace the value of an existing key in place,
otherwise append the new binding at the end (insertion order preserved). -/
def dictSet {α : Type} : List (String × α) → String → α → List (String × α)
  | [], k, v => [(k, v)]
  | (k0, v0) :: rest, k, v =>
      if k0 = k then (k, v) :: rest else (k0, v0) :: dictSet rest k v

/-- Python `d.get(k)` / `d[k]` lookup. -/
def dictGet? {α : Type} : List (String × α) → String → Option α
  | [], _ => none
  | (k0, v0) :: rest, k => if k0 = k then some v0 else dictGet? rest k

/-- Python `k in d` membership test on a dict. -/
def dictContains {α : Type} (d : List (String × α)) (k : String) : Bool :=
  (dictGet? d k).isSome

/-- Python `d.values()` in insertion order. -/
def dictValues {α : Type} (d : List (String × α)) : List α :=
  d.map Prod.snd

/-! ### Data model: `VoiceProvider` (provider_discovery.py lines 22-32) -/

/-- Embedding of the `VoiceProvider` dataclass.  The `metadata` dict field is
omitted: it is always left at its empty default by the code under study. -/
structure VoiceProvider where
  name : String
  type : String
  url : Option String := none
  priority : Int := 100
  is_local : Bool := false
  healthy : Bool := false
  available_models : List String := []
  available_voices : List String := []
deriving Repr, DecidableEq

/-- The registry mapping `name -> VoiceProvider` (`self.providers`). -/
abbrev Registry := List (String × VoiceProvider)

/-- Configuration values imported from `voice_mode.config` (not defined in
the sources under study, so carried as explicit parameters).  Each is an
optional string, `none`/empty meaning unset. -/
structure Config where
  OPENAI_API_KEY : Option String
  KOKORO_SERVER_URL : Option String
  WHISPER_SERVER_URL : Option String

/-- Classification of the parsed JSON body of a probe response, following the
`isinstance` branching in `_check_kokoro`: a bare list, a dict containing a
`"voices"` key, or anything else. -/
inductive VoicesJson where
  | jlist (xs : List String)
  | jdictVoices (xs : List String)
  | jother
deriving Repr, DecidableEq

/-- Outcome of the single HTTP GET a probe performs: the exceptions caught by
the probe (`httpx.ConnectError`, `httpx.TimeoutException`) or a response with
a status code and body. -/
inductive HttpResult where
  | connectError
  | timeout
  | response (status : Nat) (body : VoicesJson)
deriving Repr, DecidableEq

/-! ### Health probes (provider_discovery.py lines 53-132)

Each probe is a function from the registry to the updated registry; the
network outcome is an explicit argument. -/

/-- Embedding of `ProviderDiscovery._check_openai`: if no API key is
configured the probe returns without touching the registry; otherwise the
provider is recorded as healthy without any network round trip. -/
def check_openai (cfg : Config) (providers : Registry) : Registry :=
  if falsy cfg.OPENAI_API_KEY then providers
  else
    dictSet providers "openai"
      { name := "OpenAI"
        type := "tts_stt"
        is_local := false
        healthy := true
        available_models := ["tts-1", "tts-1-hd", "whisper-1"]
        available_voices := ["alloy", "echo", "fable", "onyx", "nova", "shimmer"] }

/-- Embedding of `ProviderDiscovery._check_kokoro`.  On a 200 response a
healthy record with extracted voices is published; on `ConnectError` or
`TimeoutException` an unhealthy record is published; on a non-200 response
the `if response.status_code == 200` test fails and nothing is published. -/
def check_kokoro (cfg : Config) (net : HttpResult) (providers : Registry) : Registry :=
  if falsy cfg.KOKORO_SERVER_URL then providers
  else
    match net with
    | .response status body =>
        if status = 200 then
          let voices : List String :=
            match body with
            | .jlist xs => xs
            | .jdictVoices xs => xs
            | .jother => []
          dictSet providers "kokoro"
            { name := "Kokoro"
              type := "tts"
              url := cfg.KOKORO_SERVER_URL
              is_local := true
              healthy := true
              available_voices := voices
              available_models := ["kokoro"] }
        else providers
    | .connectError =>
        dictSet providers "kokoro"
          { name := "Kokoro"
            type := "tts"
            url := cfg.KOKORO_SERVER_URL
            is_local := true
            healthy := false }
    | .timeout =>
        dictSet providers "kokoro"
          { name := "Kokoro"
            type := "tts"
            url := cfg.KOKORO_SERVER_URL
            is_local := true
            healthy := false }

/-- Embedding of `ProviderDiscovery._check_whisper`: same shape as the kokoro
probe, against `/v1/models`, publishing no capability metadata. -/
def check_whisper (cfg : Config) (net : HttpResult) (providers : Registry) : Registry :=
  if falsy cfg.WHISPER_SERVER_URL then providers
  else
    match net with
    | .response status _ =>
        if status = 200 then
          dictSet providers "whisper"
            { name := "Whisper"
              type := "stt"
              url := cfg.WHISPER_SERVER_URL
              is_local := true
              healthy := true }
        else providers
    | .connectError =>
        dictSet providers "whisper"
          { name := "Whisper"
            type := "stt"
            url := cfg.WHISPER_SERVER_URL
            is_local := true
            healthy := false }
    | .timeout =>
        dictSet providers "whisper"
          { name := "Whisper"
            type := "stt"
            url := cfg.WHISPER_SERVER_URL
            is_local := true
            healthy := false }

/-! ### Discovery orchestration (provider_discovery.py lines 40-51)

`discover_all` awaits `_check_openai`, then `_check_kokoro`, then
`_check_whisper`.  A probe coroutine that is awaited runs from start to
finish before the next statement, so each `check_*_run` appends the probe's
start and finish events to the trace and applies the registry update. -/

/-- Start/finish events of one probe coroutine, for reasoning about the
execution order of `discover_all`. -/
inductive ProbeEvent where
  | pstart (name : String)
  | pend (name : String)
deriving Repr, DecidableEq

/-- Run the openai probe to completion: registry update plus trace events. -/
def check_openai_run (cfg : Config) (st : Registry × List ProbeEvent) :
    Registry × List ProbeEvent :=
  (check_openai cfg st.1, st.2 ++ [.pstart "openai", .pend "openai"])

/-- Run the kokoro probe to completion: registry update plus trace events. -/
def check_kokoro_run (cfg : Config) (net : HttpResult) (st : Registry × List ProbeEvent) :
    Registry × List ProbeEvent :=
  (check_kokoro cfg net st.1, st.2 ++ [.pstart "kokoro", .pend "kokoro"])

/-- Run the whisper probe to completion: registry update plus trace events. -/
def check_whisper_run (cfg : Config) (net : HttpResult) (st : Registry × List ProbeEvent) :
    Registry × List ProbeEvent :=
  (check_whisper cfg net st.1, st.2 ++ [.pstart "whisper", .pend "whisper"])

/-- Embedding of `ProviderDiscovery.discover_all`: the three probes are
awaited one after another, in the fixed order openai, kokoro, whisper. -/
def discover_all (cfg : Config) (kokoroNet whisperNet : HttpResult)
    (st : Registry × List ProbeEvent) : Registry × List ProbeEvent :=
  check_whisper_run cfg whisperNet
    (check_kokoro_run cfg kokoroNet
      (check_openai_run cfg st))

/-! ### Capability queries (provider_discovery.py lines 134-142) -/

/-- Embedding of `ProviderDiscovery.get_healthy_tts_providers`: a list
comprehension over `self.providers.values()` with a health-and-capability
filter and no reordering. -/
def get_healthy_tts_providers (providers : Registry) : List VoiceProvider :=
  (dictValues providers).filter
    (fun p => p.healthy && (strContains p.type "tts" || strContains p.type "tts_stt"))

/-- Embedding of `ProviderDiscovery.get_healthy_stt_providers`. -/
def get_healthy_stt_providers (providers : Registry) : List VoiceProvider :=
  (dictValues providers).filter
    (fun p => p.healthy && (strContains p.type "stt" || strContains p.type "tts_stt"))

/-! ### Preferred-provider selection (provider_discovery.py lines 144-170) -/

/-- Embedding of the guard pattern `k in self.providers and
self.providers[k].healthy`, returning `self.providers[k]` when it passes. -/
def healthyGet (providers : Registry) (k : String) : Option VoiceProvider :=
  match dictGet? providers k with
  | some p => if p.healthy then some p else none
  | none => none

/-- The fall-through of `get_preferred_tts` when the preferred branch does
not fire: kokoro (local) if healthy, else openai if healthy, else `None`. -/
def get_preferred_tts_default (providers : Registry) : Option VoiceProvider :=
  match healthyGet providers "kokoro" with
  | some p => some p
  | none => healthyGet providers "openai"

/-- Embedding of `ProviderDiscovery.get_preferred_tts`: the first `if`
returns `providers[preferred]` exactly when `preferred` is truthy, known and
healthy; otherwise the remaining two `if`s run, i.e. the default chain. -/
def get_preferred_tts (providers : Registry) (preferred : Option String) :
    Option VoiceProvider :=
  match preferred with
  | some s =>
      if s = "" then get_preferred_tts_default providers
      else
        match healthyGet providers s with
        | some p => some p
        | none => get_preferred_tts_default providers
  | none => get_preferred_tts_default providers

/-- The fall-through of `get_preferred_stt`: whisper (local) if healthy,
else openai if healthy, else `None`. -/
def get_preferred_stt_default (providers : Registry) : Option VoiceProvider :=
  match healthyGet providers "whisper" with
  | some p => some p
  | none => healthyGet providers "openai"

/-- Embedding of `ProviderDiscovery.get_preferred_stt`: same shape as the
TTS selection, with whisper as the local provider. -/
def get_preferred_stt (providers : Registry) (preferred : Option String) :
    Option VoiceProvider :=
  match preferred with
  | some s =>
      if s = "" then get_preferred_stt_default providers
      else
        match healthyGet providers s with
        | some p => some p
        | none => get_preferred_stt_default providers
  | none => get_preferred_stt_default providers

namespace SimpleFailover

/-- Embedding of `SimpleFailover.get_stt_failover_plan`.  The default
provider name comes from `voice_mode.config` (not defined in the sources
under study), so it is an explicit parameter. -/
def get_stt_failover_plan (DEFAULT_STT_PROVIDER : String)
    (preferred : Option String) : String × String :=
  if preferred = some "whisper" then ("whisper", "openai")
  else if preferred = some "openai" then ("openai", "whisper")
  else if DEFAULT_STT_PROVIDER = "whisper" then ("whisper", "openai")
  else ("openai", "whisper")

/-- Embedding of `SimpleFailover.get_tts_failover_plan`. -/
def get_tts_failover_plan (DEFAULT_TTS_PROVIDER : String)
    (preferred : Option String) : String × String :=
  if preferred = some "kokoro" then ("kokoro", "openai")
  else if preferred = some "openai" then ("openai", "kokoro")
  else if DEFAULT_TTS_PROVIDER = "kokoro" then ("kokoro", "openai")
  else ("openai", "kokoro")

end SimpleFailover

/-! ### Exceptions and keyword arguments (simple_failover.py) -/

/-- Python exception as seen by the failover code: its message (`str(e)`) and
its implicit context chain (`__context__`, set by the runtime when an
exception is raised while another is being handled).  `leaf` is an exception
with no context; `chained` carries its context exception. -/
inductive PyErr where
  | leaf (msg : String)
  | chained (msg : String) (context : PyErr)
deriving Repr, DecidableEq

/-- Message of the exception itself (`str(e)`). -/
def PyErr.msg : PyErr → String
  | .leaf m => m
  | .chained m _ => m

/-- Context exception attached to this one, if any. -/
def PyErr.ctx : PyErr → Option PyErr
  | .leaf _ => none
  | .chained _ c => some c

/-- Whether the message `s` appears in the exception or anywhere along its
context chain. -/
def PyErr.mentions : PyErr → String → Bool
  | .leaf m, s => decide (m = s)
  | .chained m c, s => decide (m = s) || c.mentions s

/-- Value stored in a keyword-argument dict: the strings, booleans and
exception objects the failover code inserts, plus opaque caller-supplied
values distinguished by a tag. -/
inductive KwVal where
  | vstr (s : String)
  | vbool (b : Bool)
  | vexc (e : PyErr)
  | vother (tag : Nat)
deriving Repr, DecidableEq

/-- A `**kwargs` mapping. -/
abbrev Kwargs := List (String × KwVal)

/-! ### Store of mutable dicts

Python dicts are mutable objects passed by reference; `kwargs.copy()`
allocates a fresh dict.  The store is the heap of live dicts, and a `Ref` is
an index into it, so aliasing between the caller's dict and the executor's
copies is explicit. -/

/-- Heap of dict objects. -/
abbrev Store := List Kwargs

/-- Reference to a dict object in the store. -/
abbrev Ref := Nat

/-- Read the dict a reference points to. -/
def storeGet (st : Store) (r : Ref) : Kwargs :=
  st.getD r []

/-- Python `d[k] = v` on the dict behind reference `r`: in-place mutation of
that one store cell. -/
def storeSetKey (st : Store) (r : Ref) (k : String) (v : KwVal) : Store :=
  st.set r (dictSet (storeGet st r) k v)

/-- Python `d.copy()` followed by binding the fresh dict: allocate a new
store cell holding `d` and return its reference. -/
def storeAlloc (st : Store) (d : Kwargs) : Store × Ref :=
  (st ++ [d], st.length)

/-! ### Failover executors (simple_failover.py lines 21-62 and 96-128)

An operation is embedded as a pure function from the keyword arguments it
receives to `Except String` of its result: `.error m` is the operation
raising a fresh exception whose `str` is `m`.  Positional `*args` carry no
logic in the code under study and are omitted.  Each executor returns the
propagated result or exception, the final store, and the trace of calls it
made (the kwargs each attempt received, in order). -/

namespace SimpleFailover

/-- Embedding of `SimpleFailover.try_with_failover`.  On primary failure the
caller's kwargs dict itself is mutated (`kwargs['_original_error'] = e`) and
passed to the secondary; if the secondary also raises, its exception is
re-raised, carrying the primary exception as implicit context.  Calls are
tagged `0` for the primary function and `1` for the secondary. -/
def try_with_failover {α : Type} (primary_fn secondary_fn : Kwargs → Except String α)
    (st : Store) (kwargs : Ref) :
    Except PyErr α × Store × List (Nat × Kwargs) :=
  let kw0 := storeGet st kwargs
  match primary_fn kw0 with
  | .ok r => (.ok r, st, [(0, kw0)])
  | .error e =>
      let st1 := storeSetKey st kwargs "_original_error" (.vexc (.leaf e))
      let kw1 := storeGet st1 kwargs
      match secondary_fn kw1 with
      | .ok r => (.ok r, st1, [(0, kw0), (1, kw1)])
      | .error e2 => (.error (.chained e2 (.leaf e)), st1, [(0, kw0), (1, kw1)])

end SimpleFailover

/-- Kwargs of the primary attempt in `execute_with_failover`:
`call_kwargs = kwargs.copy(); call_kwargs['provider'] = primary_provider`. -/
def primaryCallKwargs (primary_provider : String) (kw : Kwargs) : Kwargs :=
  dictSet kw "provider" (.vstr primary_provider)

/-- Kwargs of the fallback attempt in `execute_with_failover`: a fresh copy
of the caller's kwargs with `provider`, `is_fallback` and `fallback_reason`
set, in that order. -/
def fallbackCallKwargs (secondary_provider reason : String) (kw : Kwargs) : Kwargs :=
  dictSet
    (dictSet
      (dictSet kw "provider" (.vstr secondary_provider))
      "is_fallback" (.vbool true))
    "fallback_reason" (.vstr reason)

/-- Embedding of `execute_with_failover`.  Each attempt works on its own
copy of the caller's kwargs; on primary failure a second copy receives the
fallback keys and the operation is retried with the secondary provider; a
secondary exception propagates with the primary exception as implicit
context. -/
def execute_with_failover {α : Type} (operation_fn : Kwargs → Except String α)
    (primary_provider secondary_provider : String)
    (st : Store) (kwargs : Ref) :
    Except PyErr α × Store × List Kwargs :=
  let (st1, c1) := storeAlloc st (storeGet st kwargs)
  let st2 := storeSetKey st1 c1 "provider" (.vstr primary_provider)
  let kw1 := storeGet st2 c1
  match operation_fn kw1 with
  | .ok r => (.ok r, st2, [kw1])
  | .error e =>
      let (st3, c2) := storeAlloc st2 (storeGet st2 kwargs)
      let st4 := storeSetKey st3 c2 "provider" (.vstr secondary_provider)
      let st5 := storeSetKey st4 c2 "is_fallback" (.vbool true)
      let st6 := storeSetKey st5 c2 "fallback_reason" (.vstr e)
      let kw2 := storeGet st6 c2
      match operation_fn kw2 with
      | .ok r => (.ok r, st6, [kw1, kw2])
      | .error e2 => (.error (.chained e2 (.leaf e)), st6, [kw1, kw2])

/-! ### Basic lemmas about dictionaries and the store -/

theorem dictGet?_set_self {α : Type} (d : List (String × α)) (k : String) (v : α) :
    dictGet? (dictSet d k v) k = some v := by
  induction d with
  | nil => simp [dictSet, dictGet?]
  | cons hd tl ih =>
      obtain ⟨k0, v0⟩ := hd
      by_cases h : k0 = k
      · simp [dictSet, dictGet?, h]
      · simp [dictSet, dictGet?, h, ih]

theorem dictGet?_set_ne {α : Type} (d : List (String × α)) (k k' : String) (v : α)
    (h : k' ≠ k) : dictGet? (dictSet d k v) k' = dictGet? d k' := by
  induction d with
  | nil => simp [dictSet, dictGet?, Ne.symm h]
  | cons hd tl ih =>
      obtain ⟨k0, v0⟩ := hd
      by_cases h0 : k0 = k
      · subst h0
        simp [dictSet, dictGet?, Ne.symm h]
      · by_cases h1 : k0 = k'
        · subst h1
          simp [dictSet, dictGet?, h]
        · simp [dictSet, dictGet?, h0, h1, ih]

theorem dictContains_set {α : Type} (d : List (String × α)) (k k' : String) (v : α)
    (h : dictContains d k' = true) : dictContains (dictSet d k v) k' = true := by
  by_cases hk : k' = k
  · subst hk
    simp [dictContains, dictGet?_set_self]
  · simpa [dictContains, dictGet?_set_ne d k k' v hk] using h

theorem storeGet_append_self : ∀ (st : Store) (d : Kwargs),
    storeGet (st ++ [d]) st.length = d
  | [], _ => rfl
  | x :: xs, d => by simp [storeGet]

theorem storeGet_append_lt : ∀ (st l : Store) (r : Ref), r < st.length →
    storeGet (st ++ l) r = storeGet st r
  | [], _, r, h => absurd h (by simp)
  | _ :: _, _, 0, _ => rfl
  | x :: xs, l, r + 1, h => by
      have := storeGet_append_lt xs l r (Nat.lt_of_succ_lt_succ h)
      simp [storeGet] at this ⊢
      exact this

theorem storeGet_set_self : ∀ (st : Store) (r : Ref) (d : Kwargs), r < st.length →
    storeGet (st.set r d) r = d
  | [], r, _, h => absurd h (by simp)
  | _ :: _, 0, _, _ => rfl
  | x :: xs, r + 1, d, h => by
      simpa [storeGet, List.set] using storeGet_set_self xs r d (Nat.lt_of_succ_lt_succ h)

theorem storeGet_set_ne : ∀ (st : Store) (i j : Ref) (d : Kwargs), i ≠ j →
    storeGet (st.set i d) j = storeGet st j
  | [], _, _, _, _ => rfl
  | _ :: _, 0, 0, _, h => absurd rfl h
  | _ :: _, 0, _ + 1, _, _ => rfl
  | _ :: _, _ + 1, 0, _, _ => rfl
  | x :: xs, i + 1, j + 1, d, h => by
      simpa [storeGet, List.set] using
        storeGet_set_ne xs i j d (fun hh => h (by rw [hh]))

theorem storeGet_set_append_self (st : Store) (d X : Kwargs) :
    storeGet ((st ++ [d]).set st.length X) st.length = X :=
  storeGet_set_self _ _ _ (by simp)

theorem storeGet_set_append_lt (st : Store) (r : Ref) (hr : r < st.length) (d X : Kwargs) :
    storeGet ((st ++ [d]).set st.length X) r = storeGet st r := by
  rw [storeGet_set_ne _ _ _ _ (Nat.ne_of_gt hr), storeGet_append_lt _ _ _ hr]

theorem storeGet_stage2 (st : Store) (r : Ref) (hr : r < st.length) (d d2 X Y : Kwargs) :
    storeGet ((((st ++ [d]).set st.length X) ++ [d2]).set (st.length + 1) Y) r =
      storeGet st r := by
  have hne2 : st.length + 1 ≠ r := Nat.ne_of_gt (Nat.lt_succ_of_lt hr)
  have hlt : r < ((st ++ [d]).set st.length X).length := by
    simp only [List.length_set, List.length_append, List.length_singleton]
    exact Nat.lt_succ_of_lt hr
  rw [storeGet_set_ne _ _ _ _ hne2, storeGet_append_lt _ _ _ hlt,
    storeGet_set_ne _ _ _ _ (Nat.ne_of_gt hr), storeGet_append_lt _ _ _ hr]

/-! ### Characterizations of the two executors

These lemmas compute, for a valid caller reference, the full outcome of each
executor (propagated value or exception, final store, call trace) as a
function of what the operation returns on the primary-attempt kwargs and, on
failure, on the fallback-attempt kwargs. -/

theorem execute_with_failover_spec {α : Type} (op : Kwargs → Except String α)
    (p s : String) (st : Store) (r : Ref) (hr : r < st.length) :
    execute_with_failover op p s st r =
      match op (primaryCallKwargs p (storeGet st r)) with
      | .ok v =>
          (.ok v,
           (st ++ [storeGet st r]).set st.length (primaryCallKwargs p (storeGet st r)),
           [primaryCallKwargs p (storeGet st r)])
      | .error e =>
          match op (fallbackCallKwargs s e (storeGet st r)) with
          | .ok v =>
              (.ok v,
               (((st ++ [storeGet st r]).set st.length (primaryCallKwargs p (storeGet st r)))
                  ++ [storeGet st r]).set (st.length + 1)
                 (fallbackCallKwargs s e (storeGet st r)),
               [primaryCallKwargs p (storeGet st r),
                fallbackCallKwargs s e (storeGet st r)])
          | .error e2 =>
              (.error (.chained e2 (.leaf e)),
               (((st ++ [storeGet st r]).set st.length (primaryCallKwargs p (storeGet st r)))
                  ++ [storeGet st r]).set (st.length + 1)
                 (fallbackCallKwargs s e (storeGet st r)),
               [primaryCallKwargs p (storeGet st r),
                fallbackCallKwargs s e (storeGet st r)]) := by
  unfold execute_with_failover storeAlloc storeSetKey
  have E2 : ∀ X : Kwargs, storeGet ((st ++ [storeGet st r]).set st.length X) r
      = storeGet st r := by
    intro X
    rw [storeGet_set_ne _ _ _ _ (Nat.ne_of_gt hr), storeGet_append_lt _ _ _ hr]
  simp only [storeGet_set_append_self, storeGet_append_self, List.set_set, E2,
    primaryCallKwargs, fallbackCallKwargs]
  cases hop : op (dictSet (storeGet st r) "provider" (KwVal.vstr p)) with
  | ok v => simp
  | error e =>
      cases hop2 : op (dictSet (dictSet (dictSet (storeGet st r) "provider" (KwVal.vstr s))
          "is_fallback" (KwVal.vbool true)) "fallback_reason" (KwVal.vstr e)) with
      | ok v => simp
      | error e2 => simp

theorem try_with_failover_spec {α : Type} (primary_fn secondary_fn : Kwargs → Except String α)
    (st : Store) (r : Ref) (hr : r < st.length) :
    SimpleFailover.try_with_failover primary_fn secondary_fn st r =
      match primary_fn (storeGet st r) with
      | .ok v => (.ok v, st, [(0, storeGet st r)])
      | .error e =>
          match secondary_fn (dictSet (storeGet st r) "_original_error" (.vexc (.leaf e))) with
          | .ok v =>
              (.ok v,
               st.set r (dictSet (storeGet st r) "_original_error" (.vexc (.leaf e))),
               [(0, storeGet st r),
                (1, dictSet (storeGet st r) "_original_error" (.vexc (.leaf e)))])
          | .error e2 =>
              (.error (.chained e2 (.leaf e)),
               st.set r (dictSet (storeGet st r) "_original_error" (.vexc (.leaf e))),
               [(0, storeGet st r),
                (1, dictSet (storeGet st r) "_original_error" (.vexc (.leaf e)))]) := by
  unfold SimpleFailover.try_with_failover storeSetKey
  have E1 : ∀ v : KwVal, storeGet (st.set r (dictSet (storeGet st r) "_original_error" v)) r
      = dictSet (storeGet st r) "_original_error" v := by
    intro v
    exact storeGet_set_self _ _ _ hr
  simp only [E1]

/-! ### Witness fixtures: concrete operations, kwargs and store -/

/-- Caller-supplied kwargs used in witnesses. -/
def kwargsEx : Kwargs := [("text", .vstr "hello")]

/-- Store holding just the caller's kwargs dict at reference 0. -/
def storeEx : Store := [kwargsEx]

/-- Witness operation: raises for provider "kokoro", succeeds otherwise. -/
def opEx : Kwargs → Except String Nat := fun kw =>
  if dictGet? kw "provider" = some (.vstr "kokoro") then .error "primary boom" else .ok 7

/-- Witness operation: raises a provider-specific error for every provider. -/
def opFailBoth : Kwargs → Except String Nat := fun kw =>
  if dictGet? kw "provider" = some (.vstr "kokoro") then .error "primary boom"
  else .error "secondary boom"

/-- Witness primary function that always raises. -/
def primaryFailEx : Kwargs → Except String Nat := fun _ => .error "primary boom"

/-- Witness secondary function that always raises. -/
def secondaryFailEx : Kwargs → Except String Nat := fun _ => .error "secondary boom"

/-- Witness secondary function that always succeeds. -/
def secondaryOkEx : Kwargs → Except String Nat := fun _ => .ok 9

/-! ### Claim theorems about the failover executors -/

/-- C1: in every failover execution where the primary raises `e1` and the
secondary raises `e2`, both executors propagate the secondary's exception
with the primary exception attached as context: the final error's own
message is `e2`, its context chain mentions both `e1` and `e2`, and the
primary error is not dropped. -/
theorem both_fail_propagates_secondary_with_primary_context {α : Type}
    (op primary_fn secondary_fn : Kwargs → Except String α)
    (p s : String) (st : Store) (r : Ref) (e1 e2 : String)
    (hr : r < st.length)
    (h1 : op (primaryCallKwargs p (storeGet st r)) = .error e1)
    (h2 : op (fallbackCallKwargs s e1 (storeGet st r)) = .error e2)
    (hp : ∀ kw, primary_fn kw = .error e1)
    (hs : ∀ kw, secondary_fn kw = .error e2) :
    (execute_with_failover op p s st r).1 = .error (.chained e2 (.leaf e1)) ∧
    (SimpleFailover.try_with_failover primary_fn secondary_fn st r).1 =
      .error (.chained e2 (.leaf e1)) ∧
    (PyErr.chained e2 (.leaf e1)).msg = e2 ∧
    (PyErr.chained e2 (.leaf e1)).mentions e1 = true ∧
    (PyErr.chained e2 (.leaf e1)).mentions e2 = true := by
  refine ⟨?_, ?_, rfl, ?_, ?_⟩
  · simp [execute_with_failover_spec op p s st r hr, h1, h2]
  · simp [try_with_failover_spec primary_fn secondary_fn st r hr, hp, hs]
  · simp [PyErr.mentions]
  · simp [PyErr.mentions]

/-- Closed witness for C1 at a concrete store and concrete operations. -/
theorem both_fail_combined_error_witness :
    (execute_with_failover opFailBoth "kokoro" "openai" storeEx 0).1 =
      .error (.chained "secondary boom" (.leaf "primary boom")) ∧
    (SimpleFailover.try_with_failover primaryFailEx secondaryFailEx storeEx 0).1 =
      .error (.chained "secondary boom" (.leaf "primary boom")) :=
  have h := both_fail_propagates_secondary_with_primary_context opFailBoth
    primaryFailEx secondaryFailEx "kokoro" "openai" storeEx 0
    "primary boom" "secondary boom" (by decide) (by rfl) (by rfl)
    (fun _ => rfl) (fun _ => rfl)
  ⟨h.1, h.2.1⟩

/-- C2 counterexample: in a `try_with_failover` execution whose primary
fails and whose secondary exists and succeeds, the executor returns the
secondary's result, but the kwargs the secondary receives carry only the
mutated `_original_error` key — no `is_fallback` and no `fallback_reason`
key is present — refuting the claim on this failover path. -/
theorem try_fallback_lacks_flags :
    (SimpleFailover.try_with_failover primaryFailEx secondaryOkEx storeEx 0).1 =
      .ok 9 ∧
    (SimpleFailover.try_with_failover primaryFailEx secondaryOkEx storeEx 0).2.2 =
      [(0, kwargsEx),
       (1, dictSet kwargsEx "_original_error" (.vexc (.leaf "primary boom")))] ∧
    dictGet? (dictSet kwargsEx "_original_error" (.vexc (.leaf "primary boom")))
      "is_fallback" = none ∧
    dictGet? (dictSet kwargsEx "_original_error" (.vexc (.leaf "primary boom")))
      "fallback_reason" = none :=
  ⟨rfl, rfl, rfl, rfl⟩

/-- C2 (amended): when the primary fails with message `e1` and the secondary
succeeds, both executors return the secondary's result, but they hand the
primary's error to the secondary differently.  `execute_with_failover`
invokes the secondary with the caller's kwargs augmented with the secondary
provider, `is_fallback = True` and `fallback_reason = e1`, all other keys
unchanged.  `try_with_failover` instead invokes the secondary with the
caller's kwargs mutated with `_original_error = <primary exception>`, and
every other key — in particular `is_fallback` and `fallback_reason` — is
exactly as the caller supplied it, never added. -/
theorem fallback_receives_flags_and_reason {α : Type}
    (op primary_fn secondary_fn : Kwargs → Except String α)
    (p s : String) (st : Store) (r : Ref) (e1 : String) (res res2 : α)
    (hr : r < st.length)
    (h1 : op (primaryCallKwargs p (storeGet st r)) = .error e1)
    (h2 : op (fallbackCallKwargs s e1 (storeGet st r)) = .ok res)
    (hp : ∀ kw, primary_fn kw = .error e1)
    (hs : ∀ kw, secondary_fn kw = .ok res2) :
    (execute_with_failover op p s st r).1 = .ok res ∧
    (execute_with_failover op p s st r).2.2 =
      [primaryCallKwargs p (storeGet st r), fallbackCallKwargs s e1 (storeGet st r)] ∧
    dictGet? (fallbackCallKwargs s e1 (storeGet st r)) "provider" = some (.vstr s) ∧
    dictGet? (fallbackCallKwargs s e1 (storeGet st r)) "is_fallback" = some (.vbool true) ∧
    dictGet? (fallbackCallKwargs s e1 (storeGet st r)) "fallback_reason" = some (.vstr e1) ∧
    (∀ k, k ≠ "provider" → k ≠ "is_fallback" → k ≠ "fallback_reason" →
      dictGet? (fallbackCallKwargs s e1 (storeGet st r)) k = dictGet? (storeGet st r) k) ∧
    (SimpleFailover.try_with_failover primary_fn secondary_fn st r).1 = .ok res2 ∧
    (SimpleFailover.try_with_failover primary_fn secondary_fn st r).2.2 =
      [(0, storeGet st r),
       (1, dictSet (storeGet st r) "_original_error" (.vexc (.leaf e1)))] ∧
    dictGet? (dictSet (storeGet st r) "_original_error" (.vexc (.leaf e1)))
      "_original_error" = some (.vexc (.leaf e1)) ∧
    (∀ k, k ≠ "_original_error" →
      dictGet? (dictSet (storeGet st r) "_original_error" (.vexc (.leaf e1))) k =
        dictGet? (storeGet st r) k) := by
  refine ⟨?_, ?_, ?_, ?_, ?_, ?_, ?_, ?_, ?_, ?_⟩
  · simp [execute_with_failover_spec op p s st r hr, h1, h2]
  · simp [execute_with_failover_spec op p s st r hr, h1, h2]
  · unfold fallbackCallKwargs
    rw [dictGet?_set_ne _ _ _ _ (by decide), dictGet?_set_ne _ _ _ _ (by decide),
      dictGet?_set_self]
  · unfold fallbackCallKwargs
    rw [dictGet?_set_ne _ _ _ _ (by decide), dictGet?_set_self]
  · unfold fallbackCallKwargs
    rw [dictGet?_set_self]
  · intro k hk1 hk2 hk3
    unfold fallbackCallKwargs
    rw [dictGet?_set_ne _ _ _ _ hk3, dictGet?_set_ne _ _ _ _ hk2,
      dictGet?_set_ne _ _ _ _ hk1]
  · simp [try_with_failover_spec primary_fn secondary_fn st r hr, hp, hs]
  · simp [try_with_failover_spec primary_fn secondary_fn st r hr, hp, hs]
  · exact dictGet?_set_self _ _ _
  · intro k hk
    exact dictGet?_set_ne _ _ _ _ hk

/-- Closed witness for C2's amended theorem: the `execute_with_failover`
fallback succeeds with the secondary's result and received
`is_fallback = True`, while the `try_with_failover` secondary also succeeds
but its kwargs carry the `_original_error` key instead. -/
theorem fallback_receives_flags_witness :
    (execute_with_failover opEx "kokoro" "openai" storeEx 0).1 = .ok 7 ∧
    dictGet? (fallbackCallKwargs "openai" "primary boom" (storeGet storeEx 0))
      "is_fallback" = some (.vbool true) ∧
    (SimpleFailover.try_with_failover primaryFailEx secondaryOkEx storeEx 0).1 =
      .ok 9 ∧
    dictGet? (dictSet (storeGet storeEx 0) "_original_error"
        (.vexc (.leaf "primary boom"))) "_original_error" =
      some (.vexc (.leaf "primary boom")) :=
  have h := fallback_receives_flags_and_reason opEx primaryFailEx secondaryOkEx
    "kokoro" "openai" storeEx 0 "primary boom" 7 9
    (by decide) (by rfl) (by rfl) (fun _ => rfl) (fun _ => rfl)
  ⟨h.1, h.2.2.2.1, h.2.2.2.2.2.2.1, h.2.2.2.2.2.2.2.2.1⟩

/-- C3: in every failover execution, the primary attempt is the first call
made; when the primary succeeds it is the only call, and when it fails the
trace consists of exactly the primary call followed by one fallback call.
The same sequencing holds for `try_with_failover`, with the primary function
(tag 0) called once before the secondary function (tag 1) is called at all. -/
theorem primary_called_once_before_secondary {α : Type}
    (op primary_fn secondary_fn : Kwargs → Except String α)
    (p s : String) (st : Store) (r : Ref) (hr : r < st.length) :
    ((execute_with_failover op p s st r).2.2.head? =
        some (primaryCallKwargs p (storeGet st r))) ∧
    (∀ v, op (primaryCallKwargs p (storeGet st r)) = .ok v →
      (execute_with_failover op p s st r).2.2 = [primaryCallKwargs p (storeGet st r)]) ∧
    (∀ e, op (primaryCallKwargs p (storeGet st r)) = .error e →
      (execute_with_failover op p s st r).2.2 =
        [primaryCallKwargs p (storeGet st r), fallbackCallKwargs s e (storeGet st r)]) ∧
    ((SimpleFailover.try_with_failover primary_fn secondary_fn st r).2.2.head? =
        some (0, storeGet st r)) ∧
    (∀ v, primary_fn (storeGet st r) = .ok v →
      (SimpleFailover.try_with_failover primary_fn secondary_fn st r).2.2 =
        [(0, storeGet st r)]) ∧
    (∀ e, primary_fn (storeGet st r) = .error e →
      (SimpleFailover.try_with_failover primary_fn secondary_fn st r).2.2 =
        [(0, storeGet st r),
         (1, dictSet (storeGet st r) "_original_error" (.vexc (.leaf e)))]) := by
  refine ⟨?_, ?_, ?_, ?_, ?_, ?_⟩
  · rw [execute_with_failover_spec op p s st r hr]
    cases hop : op (primaryCallKwargs p (storeGet st r)) with
    | ok v => simp
    | error e =>
        cases hop2 : op (fallbackCallKwargs s e (storeGet st r)) <;> simp [hop2]
  · intro v hv
    simp [execute_with_failover_spec op p s st r hr, hv]
  · intro e he
    rw [execute_with_failover_spec op p s st r hr, he]
    cases hop2 : op (fallbackCallKwargs s e (storeGet st r)) <;> simp [hop2]
  · rw [try_with_failover_spec primary_fn secondary_fn st r hr]
    cases hop : primary_fn (storeGet st r) with
    | ok v => simp
    | error e =>
        cases hop2 : secondary_fn
          (dictSet (storeGet st r) "_original_error" (.vexc (.leaf e))) <;> simp [hop2]
  · intro v hv
    simp [try_with_failover_spec primary_fn secondary_fn st r hr, hv]
  · intro e he
    rw [try_with_failover_spec primary_fn secondary_fn st r hr, he]
    cases hop2 : secondary_fn
      (dictSet (storeGet st r) "_original_error" (.vexc (.leaf e))) <;> simp [hop2]

/-- Closed witness for C3: with a primary that fails, the call trace is the
primary call followed by the fallback call. -/
theorem primary_called_once_witness :
    (execute_with_failover opEx "kokoro" "openai" storeEx 0).2.2 =
      [primaryCallKwargs "kokoro" (storeGet storeEx 0),
       fallbackCallKwargs "openai" "primary boom" (storeGet storeEx 0)] :=
  (primary_called_once_before_secondary opEx primaryFailEx secondaryFailEx
    "kokoro" "openai" storeEx 0 (by decide)).2.2.1 "primary boom" (by rfl)

/-- C10: `execute_with_failover` never mutates the caller's kwargs dict:
whatever the primary and secondary attempts do, the dict behind the caller's
reference is unchanged, so in particular the fallback-only keys are never
added to it. -/
theorem caller_kwargs_unchanged {α : Type} (op : Kwargs → Except String α)
    (p s : String) (st : Store) (r : Ref) (hr : r < st.length) :
    storeGet (execute_with_failover op p s st r).2.1 r = storeGet st r ∧
    ∀ k, k = "provider" ∨ k = "is_fallback" ∨ k = "fallback_reason" →
      dictGet? (storeGet (execute_with_failover op p s st r).2.1 r) k =
        dictGet? (storeGet st r) k := by
  have hmain : storeGet (execute_with_failover op p s st r).2.1 r = storeGet st r := by
    rw [execute_with_failover_spec op p s st r hr]
    cases hop : op (primaryCallKwargs p (storeGet st r)) with
    | ok v => simpa using storeGet_append_lt st [primaryCallKwargs p (storeGet st r)] r hr
    | error e =>
        cases hop2 : op (fallbackCallKwargs s e (storeGet st r)) <;>
          simpa [hop2] using storeGet_append_lt st
            [primaryCallKwargs p (storeGet st r), fallbackCallKwargs s e (storeGet st r)] r hr
  exact ⟨hmain, fun k _ => by rw [hmain]⟩

/-- Closed witness for C10 at a concrete store and operation. -/
theorem caller_kwargs_unchanged_witness :
    storeGet (execute_with_failover opEx "kokoro" "openai" storeEx 0).2.1 0 =
      storeGet storeEx 0 :=
  (caller_kwargs_unchanged opEx "kokoro" "openai" storeEx 0 (by decide)).1

/-! ### Registry fixtures -/

/-- Configuration with only the kokoro endpoint set. -/
def cfgKokoroOnly : Config :=
  { OPENAI_API_KEY := none
    KOKORO_SERVER_URL := some "http://127.0.0.1:8880"
    WHISPER_SERVER_URL := none }

/-- Configuration with both local endpoints set but no OpenAI credential. -/
def cfgLocalBoth : Config :=
  { OPENAI_API_KEY := none
    KOKORO_SERVER_URL := some "http://127.0.0.1:8880"
    WHISPER_SERVER_URL := some "http://127.0.0.1:2022" }

/-- Provider A of the spec's P2 scenario: local, priority 10, healthy. -/
def provA : VoiceProvider :=
  { name := "A", type := "tts", priority := 10, is_local := true, healthy := true }

/-- Provider B of the spec's P2 scenario: local, priority 5, healthy. -/
def provB : VoiceProvider :=
  { name := "B", type := "tts", priority := 5, is_local := true, healthy := true }

/-- Provider C of the spec's P2 scenario: remote, priority 1, healthy. -/
def provC : VoiceProvider :=
  { name := "C", type := "tts", priority := 1, is_local := false, healthy := true }

/-- Registry with A, B, C inserted in that order. -/
def regABC : Registry := [("A", provA), ("B", provB), ("C", provC)]

/-- An unhealthy local kokoro record. -/
def kokoroDown : VoiceProvider :=
  { name := "Kokoro", type := "tts", url := some "http://127.0.0.1:8880",
    is_local := true, healthy := false }

/-- Registry whose only TTS-capable provider is unhealthy. -/
def regDown : Registry := [("kokoro", kokoroDown)]

/-- A healthy local kokoro record. -/
def kokoroUp : VoiceProvider :=
  { name := "Kokoro", type := "tts", url := some "http://127.0.0.1:8880",
    is_local := true, healthy := true, available_models := ["kokoro"] }

/-- Registry containing a healthy kokoro. -/
def regUp : Registry := [("kokoro", kokoroUp)]

/-! ### Claim theorems about probing, discovery, queries and selection -/

/-- C4 counterexample: with kokoro configured, a probe that reaches the
server but receives a non-success status (HTTP 500) publishes no record at
all — the registry stays empty — instead of publishing a `healthy = false`
record with the endpoint preserved. -/
theorem probe_non_success_publishes_nothing :
    check_kokoro cfgKokoroOnly (.response 500 .jother) [] = [] ∧
    dictGet? (check_kokoro cfgKokoroOnly (.response 500 .jother) []) "kokoro" = none :=
  ⟨rfl, rfl⟩

/-- C4 (amended): the probes catch connection errors and timeouts and
convert them into a published `healthy = false` record with the endpoint
preserved and no capability metadata; a non-success HTTP status, however, is
not converted — the probe publishes nothing and leaves the registry
unchanged. -/
theorem probe_error_handling (cfg : Config) (net : HttpResult) (d : Registry)
    (hk : falsy cfg.KOKORO_SERVER_URL = false)
    (hw : falsy cfg.WHISPER_SERVER_URL = false)
    (hnet : net = .connectError ∨ net = .timeout) :
    dictGet? (check_kokoro cfg net d) "kokoro" =
      some { name := "Kokoro", type := "tts", url := cfg.KOKORO_SERVER_URL,
             priority := 100, is_local := true, healthy := false,
             available_models := [], available_voices := [] } ∧
    dictGet? (check_whisper cfg net d) "whisper" =
      some { name := "Whisper", type := "stt", url := cfg.WHISPER_SERVER_URL,
             priority := 100, is_local := true, healthy := false,
             available_models := [], available_voices := [] } ∧
    (∀ status body, status ≠ 200 →
      check_kokoro cfg (.response status body) d = d ∧
      check_whisper cfg (.response status body) d = d) := by
  refine ⟨?_, ?_, ?_⟩
  · rcases hnet with h | h <;> subst h <;>
      simp [check_kokoro, hk, dictGet?_set_self]
  · rcases hnet with h | h <;> subst h <;>
      simp [check_whisper, hw, dictGet?_set_self]
  · intro status body hst
    constructor <;> simp [check_kokoro, check_whisper, hk, hw, hst]

/-- Closed witness for C4's amended theorem at a concrete configuration. -/
theorem probe_error_handling_witness :
    dictGet? (check_kokoro cfgLocalBoth .connectError []) "kokoro" =
      some { name := "Kokoro", type := "tts", url := some "http://127.0.0.1:8880",
             priority := 100, is_local := true, healthy := false,
             available_models := [], available_voices := [] } :=
  (probe_error_handling cfgLocalBoth .connectError [] rfl rfl (Or.inl rfl)).1

/-- C5 counterexample: for the spec's providers A (local, priority 10),
B (local, priority 5), C (remote, priority 1), all healthy, the TTS query
returns them in registry insertion order [A, B, C], not in the claimed
`(not isLocal, priority, name)` order [B, A, C]. -/
theorem query_order_counterexample :
    get_healthy_tts_providers regABC = [provA, provB, provC] ∧
    get_healthy_tts_providers regABC ≠ [provB, provA, provC] := by
  constructor
  · rfl
  · decide

/-- C5 (amended): the capability queries return exactly the healthy
providers whose `type` matches the capability (with "tts_stt" matching
either), but in registry insertion order: the result is a subsequence of the
registry's values and no `(not isLocal, priority, name)` sorting is
applied. -/
theorem query_membership_and_order (d : Registry) :
    (∀ p, p ∈ get_healthy_tts_providers d ↔
      p ∈ dictValues d ∧ p.healthy = true ∧
        (strContains p.type "tts" || strContains p.type "tts_stt") = true) ∧
    List.Sublist (get_healthy_tts_providers d) (dictValues d) ∧
    (∀ p, p ∈ get_healthy_stt_providers d ↔
      p ∈ dictValues d ∧ p.healthy = true ∧
        (strContains p.type "stt" || strContains p.type "tts_stt") = true) ∧
    List.Sublist (get_healthy_stt_providers d) (dictValues d) := by
  refine ⟨?_, List.filter_sublist _, ?_, List.filter_sublist _⟩
  · intro p
    simp [get_healthy_tts_providers, List.mem_filter, and_assoc]
  · intro p
    simp [get_healthy_stt_providers, List.mem_filter, and_assoc]

/-- Helper: the guard `k in providers and providers[k].healthy` only ever
produces a healthy provider. -/
theorem healthyGet_healthy (d : Registry) (k : String) (p : VoiceProvider)
    (h : healthyGet d k = some p) : p.healthy = true := by
  unfold healthyGet at h
  cases hq : dictGet? d k with
  | none => rw [hq] at h; exact absurd h (by simp)
  | some q =>
      rw [hq] at h
      by_cases hh : q.healthy
      · simp only [hh, if_pos] at h
        cases h
        exact hh
      · simp [hh] at h

/-- C6 counterexample: with one known TTS-capable provider that is
unhealthy, selection returns nothing (with or without a preference) instead
of a best-effort pick from all known providers. -/
theorem no_healthy_selection_refuses :
    get_preferred_tts regDown none = none ∧
    get_preferred_tts regDown (some "kokoro") = none ∧
    (dictValues regDown).any (fun p => strContains p.type "tts") = true :=
  ⟨rfl, rfl, rfl⟩

/-- C6 (amended): selection only ever returns healthy providers — any
provider returned by `get_preferred_tts` or `get_preferred_stt` is healthy —
so when zero matching providers are healthy, selection returns `none`
(refuses) rather than a best-effort unhealthy provider. -/
theorem selection_returns_only_healthy (d : Registry) (pref : Option String)
    (p : VoiceProvider) :
    (get_preferred_tts d pref = some p → p.healthy = true) ∧
    (get_preferred_stt d pref = some p → p.healthy = true) := by
  have hdt : ∀ q, get_preferred_tts_default d = some q → q.healthy = true := by
    intro q hq
    unfold get_preferred_tts_default at hq
    split at hq
    · next z hz =>
        cases hq
        exact healthyGet_healthy _ _ _ hz
    · exact healthyGet_healthy _ _ _ hq
  have hds : ∀ q, get_preferred_stt_default d = some q → q.healthy = true := by
    intro q hq
    unfold get_preferred_stt_default at hq
    split at hq
    · next z hz =>
        cases hq
        exact healthyGet_healthy _ _ _ hz
    · exact healthyGet_healthy _ _ _ hq
  constructor
  · intro h
    unfold get_preferred_tts at h
    split at h
    · split at h
      · exact hdt p h
      · split at h
        · next z hz =>
            cases h
            exact healthyGet_healthy _ _ _ hz
        · exact hdt p h
    · exact hdt p h
  · intro h
    unfold get_preferred_stt at h
    split at h
    · split at h
      · exact hds p h
      · split at h
        · next z hz =>
            cases h
            exact healthyGet_healthy _ _ _ hz
        · exact hds p h
    · exact hds p h

/-- Closed witness for C6's amended theorem: a provider actually returned by
selection is healthy. -/
theorem selection_returns_only_healthy_witness : kokoroUp.healthy = true :=
  (selection_returns_only_healthy regUp none kokoroUp).1 rfl

/-- C7 counterexample: a full discovery cycle with no OpenAI credential
leaves the "openai" provider absent from the registry entirely, rather than
present with `healthy = false`. -/
theorem missing_credential_absent :
    dictContains (discover_all cfgLocalBoth .connectError .connectError ([], [])).1
      "openai" = false :=
  rfl

/-- Helper: the openai check never removes a registry key. -/
theorem check_openai_preserves (cfg : Config) (d : Registry) (k : String)
    (h : dictContains d k = true) :
    dictContains (check_openai cfg d) k = true := by
  unfold check_openai
  split
  · exact h
  · exact dictContains_set _ _ _ _ h

/-- Helper: the kokoro check never removes a registry key. -/
theorem check_kokoro_preserves (cfg : Config) (net : HttpResult) (d : Registry)
    (k : String) (h : dictContains d k = true) :
    dictContains (check_kokoro cfg net d) k = true := by
  unfold check_kokoro
  split
  · exact h
  · split
    · split
      · exact dictContains_set _ _ _ _ h
      · exact h
    · exact dictContains_set _ _ _ _ h
    · exact dictContains_set _ _ _ _ h

/-- Helper: the whisper check never removes a registry key. -/
theorem check_whisper_preserves (cfg : Config) (net : HttpResult) (d : Registry)
    (k : String) (h : dictContains d k = true) :
    dictContains (check_whisper cfg net d) k = true := by
  unfold check_whisper
  split
  · exact h
  · split
    · split
      · exact dictContains_set _ _ _ _ h
      · exact h
    · exact dictContains_set _ _ _ _ h
    · exact dictContains_set _ _ _ _ h

/-- C7 (amended): discovery never deletes records — every provider present
before a discovery cycle is still present after it — and a check skipped for
a missing credential returns the registry unchanged; a provider whose
credential or endpoint is missing is therefore simply absent (never added),
not present with `healthy = false`. -/
theorem discovery_never_deletes (cfg : Config) (kn wn : HttpResult)
    (d : Registry) (evs : List ProbeEvent) (k : String)
    (hk : dictContains d k = true) :
    dictContains (discover_all cfg kn wn (d, evs)).1 k = true ∧
    (falsy cfg.OPENAI_API_KEY = true → check_openai cfg d = d) := by
  constructor
  · show dictContains (check_whisper cfg wn (check_kokoro cfg kn (check_openai cfg d)))
      k = true
    exact check_whisper_preserves _ _ _ _
      (check_kokoro_preserves _ _ _ _ (check_openai_preserves _ _ _ hk))
  · intro hf
    unfold check_openai
    rw [if_pos hf]

/-- Closed witness for C7's amended theorem: a present record survives a
discovery cycle. -/
theorem discovery_never_deletes_witness :
    dictContains (discover_all cfgLocalBoth .connectError .connectError (regUp, [])).1
      "kokoro" = true :=
  (discovery_never_deletes cfgLocalBoth .connectError .connectError regUp []
    "kokoro" rfl).1

/-- C8 counterexample: the plan-based selection makes the preferred name
"kokoro" the primary unconditionally — here against the empty registry, in
which "kokoro" is not known (let alone healthy). -/
theorem preferred_plan_ignores_health :
    SimpleFailover.get_tts_failover_plan "openai" (some "kokoro") =
      ("kokoro", "openai") ∧
    dictContains ([] : Registry) "kokoro" = false :=
  ⟨rfl, rfl⟩

/-- C8 (amended): for both registry-based selections (`get_preferred_tts`
and `get_preferred_stt`) a nonempty preferred name becomes the primary
exactly when it is known and healthy, and otherwise selection falls through
to the default local-first chain (the same result as with no preference);
the static failover-plan selections (`get_tts_failover_plan` and
`get_stt_failover_plan`), by contrast, return every recognized preferred
name ("kokoro"/"openai" for TTS, "whisper"/"openai" for STT) as primary
unconditionally, consulting no registry or health state. -/
theorem preferred_requires_known_healthy (d : Registry) (s : String)
    (hs : s ≠ "") :
    (∀ p, dictGet? d s = some p → p.healthy = true →
      get_preferred_tts d (some s) = some p) ∧
    (∀ p, dictGet? d s = some p → p.healthy = false →
      get_preferred_tts d (some s) = get_preferred_tts d none) ∧
    (dictGet? d s = none → get_preferred_tts d (some s) = get_preferred_tts d none) ∧
    (∀ p, dictGet? d s = some p → p.healthy = true →
      get_preferred_stt d (some s) = some p) ∧
    (∀ p, dictGet? d s = some p → p.healthy = false →
      get_preferred_stt d (some s) = get_preferred_stt d none) ∧
    (dictGet? d s = none → get_preferred_stt d (some s) = get_preferred_stt d none) ∧
    (∀ dflt, SimpleFailover.get_tts_failover_plan dflt (some "kokoro") =
      ("kokoro", "openai")) ∧
    (∀ dflt, SimpleFailover.get_tts_failover_plan dflt (some "openai") =
      ("openai", "kokoro")) ∧
    (∀ dflt, SimpleFailover.get_stt_failover_plan dflt (some "whisper") =
      ("whisper", "openai")) ∧
    (∀ dflt, SimpleFailover.get_stt_failover_plan dflt (some "openai") =
      ("openai", "whisper")) := by
  refine ⟨?_, ?_, ?_, ?_, ?_, ?_,
    fun dflt => rfl, fun dflt => rfl, fun dflt => rfl, fun dflt => rfl⟩
  · intro p hq hh
    simp [get_preferred_tts, healthyGet, hq, hh, hs]
  · intro p hq hh
    simp [get_preferred_tts, healthyGet, hq, hh, hs]
  · intro hq
    simp [get_preferred_tts, healthyGet, hq, hs]
  · intro p hq hh
    simp [get_preferred_stt, healthyGet, hq, hh, hs]
  · intro p hq hh
    simp [get_preferred_stt, healthyGet, hq, hh, hs]
  · intro hq
    simp [get_preferred_stt, healthyGet, hq, hs]

/-- Closed witness for C8's amended theorem: a known healthy preferred
provider is selected as primary by both registry-based selections. -/
theorem preferred_requires_known_healthy_witness :
    get_preferred_tts regUp (some "kokoro") = some kokoroUp ∧
    get_preferred_stt regUp (some "kokoro") = some kokoroUp :=
  have h := preferred_requires_known_healthy regUp "kokoro" (by decide)
  ⟨h.1 kokoroUp rfl rfl, h.2.2.2.1 kokoroUp rfl rfl⟩

/-- C9 counterexample: on a concrete run the discovery trace is the fully
sequential one: the kokoro probe starts only after the openai probe has
finished, contradicting concurrent fan-out/fan-in probing. -/
theorem discover_all_not_concurrent :
    (discover_all cfgLocalBoth .connectError .timeout ([], [])).2 =
      [.pstart "openai", .pend "openai", .pstart "kokoro", .pend "kokoro",
       .pstart "whisper", .pend "whisper"] ∧
    (discover_all cfgLocalBoth .connectError .timeout ([], [])).2.indexOf
        (ProbeEvent.pend "openai") <
      (discover_all cfgLocalBoth .connectError .timeout ([], [])).2.indexOf
        (ProbeEvent.pstart "kokoro") := by
  constructor
  · rfl
  · decide

/-- C9 (amended): for every configuration and all network outcomes,
`discover_all` awaits the three probes strictly sequentially in the fixed
order openai, kokoro, whisper — each probe runs to completion before the
next one starts, never concurrently. -/
theorem discover_all_sequential (cfg : Config) (kn wn : HttpResult)
    (d : Registry) (evs : List ProbeEvent) :
    (discover_all cfg kn wn (d, evs)).2 =
      evs ++ [.pstart "openai", .pend "openai", .pstart "kokoro", .pend "kokoro",
              .pstart "whisper", .pend "whisper"] := by
  simp [discover_all, check_whisper_run, check_kokoro_run, check_openai_run]

end VoiceMode
